import Mathlib

/-!
Verification of the MUX_Service repository: a shallow embedding of the
serial transport (`src/communicator/serial_communicator.py`), the device
registry (`src/communicator/deviceCommincator.py`) and the OPC UA
reconciliation logic (`src/opc_ua/serverLogic.py`), together with theorems
settling the specification's claims about them.

Modelling conventions:
- Python `dict[int, MuxDevice]` is an association list `List (Int × MuxDevice)`;
  insertion order of entries produced by set iteration is fixed arbitrarily
  (the properties proved are at the level of key sets and per-key values,
  which Python's unspecified set iteration order cannot affect).
- The concrete communicator's replies are oracle parameters: the status an
  `ArduinoError`-returning call yields, or the line (if any) the background
  reader enqueues before `sendCommand`'s timeout elapses.
- A Python expression that can raise is modelled with `PyResult`.
-/

/-- Result of evaluating a Python expression: a value, or a raised exception
identified by its class name. -/
inductive PyResult (α : Type) where
  | ok (val : α)
  | exn (exnName : String)
  deriving Repr, DecidableEq

/-- `ArduinoError` from `src/communicator/serial_communicator.py` (the copy in
`src/communicator/errors.py` is identical): SUCCESS = 0, COM_ERROR = 1,
ADDR_ERROR = 2, UNKNOWN = -1. -/
inductive ArduinoError where
  | SUCCESS
  | COM_ERROR
  | ADDR_ERROR
  | UNKNOWN
  deriving Repr, DecidableEq

/-- `ArduinoError.from_int`: `cls(value)` succeeds exactly on the declared
member values 0, 1, 2, -1; every other value raises `ValueError`, which is
caught and mapped to `UNKNOWN` (and the member for -1 is `UNKNOWN` itself). -/
def ArduinoError.from_int (value : Int) : ArduinoError :=
  if value = 0 then .SUCCESS
  else if value = 1 then .COM_ERROR
  else if value = 2 then .ADDR_ERROR
  else .UNKNOWN

/-- Python's `Enum.name` for `ArduinoError` members. -/
def ArduinoError.enumName : ArduinoError → String
  | .SUCCESS => "SUCCESS"
  | .COM_ERROR => "COM_ERROR"
  | .ADDR_ERROR => "ADDR_ERROR"
  | .UNKNOWN => "UNKNOWN"

/-- `MuxDevice` from `src/communicator/deviceCommincator.py`: address,
active channel and last status label. -/
structure MuxDevice where
  address : Int
  active_channel : Int
  last_status : String
  deriving Repr, DecidableEq

/-- `MuxDevice.__init__`: a fresh device has `active_channel = 0` and
`last_status = "IDLE"`. -/
def MuxDevice.new (address : Int) : MuxDevice :=
  { address := address, active_channel := 0, last_status := "IDLE" }

/-- The mutable state of a `DeviceController`: its `devices` dict
(`self._lock` and `self.comm` are not part of the sequential state). -/
structure ControllerState where
  devices : List (Int × MuxDevice)
  deriving Repr, DecidableEq

/-- Python dict lookup `devices.get(address)` / membership `address in devices`
on the association-list representation. -/
def dictGet (devices : List (Int × MuxDevice)) (address : Int) : Option MuxDevice :=
  match devices with
  | [] => none
  | (k, v) :: rest => if k = address then some v else dictGet rest address

/-- In-place mutation of the `MuxDevice` stored under `address`
(`self.devices[address].field = ...`): every entry with that key is updated. -/
def DeviceController.updateDevice (devices : List (Int × MuxDevice)) (address : Int)
    (f : MuxDevice → MuxDevice) : List (Int × MuxDevice) :=
  match devices with
  | [] => []
  | (k, v) :: rest =>
    (k, if k = address then f v else v) :: DeviceController.updateDevice rest address f

/-- `DeviceController.set_channel(address, channel)`.  `commStatus` is the
`ArduinoError` returned by `self.comm.set_channel(address, channel)`.
Returns the Python return value and the controller state after the call. -/
def DeviceController.set_channel (st : ControllerState) (commStatus : ArduinoError)
    (address channel : Int) : Bool × ControllerState :=
  match dictGet st.devices address with
  | none => (false, st)
  | some _ =>
    let devices1 := DeviceController.updateDevice st.devices address
      fun d => { d with last_status := commStatus.enumName }
    if commStatus = .SUCCESS then
      (true, ⟨DeviceController.updateDevice devices1 address
        fun d => { d with active_channel := channel }⟩)
    else
      (false, ⟨devices1⟩)

/-- `DeviceController.reset_mux(address)`.  `commStatus` is the status returned
by `self.comm.reset_mux(address)`; on SUCCESS the channel is reset to 0. -/
def DeviceController.reset_mux (st : ControllerState) (commStatus : ArduinoError)
    (address : Int) : Bool × ControllerState :=
  match dictGet st.devices address with
  | none => (false, st)
  | some _ =>
    let devices1 := DeviceController.updateDevice st.devices address
      fun d => { d with last_status := commStatus.enumName }
    if commStatus = .SUCCESS then
      (true, ⟨DeviceController.updateDevice devices1 address
        fun d => { d with active_channel := 0 }⟩)
    else
      (false, ⟨devices1⟩)

/-- `DeviceController.get_device_states()`: a copy of the current table. -/
def DeviceController.get_device_states (st : ControllerState) : List (Int × MuxDevice) :=
  st.devices

/-! ### Lookup lemmas for the association-list dict -/

theorem dictGet_updateDevice_self (devices : List (Int × MuxDevice)) (address : Int)
    (f : MuxDevice → MuxDevice) :
    dictGet (DeviceController.updateDevice devices address f) address
      = (dictGet devices address).map f := by
  induction devices with
  | nil => rfl
  | cons p rest ih =>
    obtain ⟨k, v⟩ := p
    by_cases h : k = address
    · subst h
      simp [dictGet, DeviceController.updateDevice]
    · simp [dictGet, DeviceController.updateDevice, h, ih]

theorem dictGet_updateDevice_ne (devices : List (Int × MuxDevice)) (address b : Int)
    (f : MuxDevice → MuxDevice) (hne : b ≠ address) :
    dictGet (DeviceController.updateDevice devices address f) b = dictGet devices b := by
  induction devices with
  | nil => rfl
  | cons p rest ih =>
    obtain ⟨k, v⟩ := p
    by_cases h : k = address
    · subst h
      simp [dictGet, DeviceController.updateDevice, Ne.symm hne, ih]
    · simp [dictGet, DeviceController.updateDevice, h, ih]

/-- C1 (claim): if `set_channel a c` returns `True`, the snapshot returned by
`get_device_states` maps `a` to a device with `active_channel = c` and
`last_status = "SUCCESS"`. -/
theorem c1_set_channel_round_trip (st : ControllerState) (commStatus : ArduinoError)
    (a c : Int)
    (h : (DeviceController.set_channel st commStatus a c).1 = true) :
    ∃ d : MuxDevice,
      dictGet (DeviceController.get_device_states
          (DeviceController.set_channel st commStatus a c).2) a = some d
      ∧ d.active_channel = c ∧ d.last_status = "SUCCESS" := by
  unfold DeviceController.set_channel at h ⊢
  cases hd : dictGet st.devices a with
  | none => simp [hd] at h
  | some dev =>
    by_cases hs : commStatus = ArduinoError.SUCCESS
    · subst hs
      refine ⟨{ dev with last_status := ArduinoError.SUCCESS.enumName, active_channel := c }, ?_, rfl, rfl⟩
      simp [hd, DeviceController.get_device_states,
        dictGet_updateDevice_self, ArduinoError.enumName]
    · simp [hd, hs] at h

/-- C1 witness: a concrete successful `set_channel` call on a one-device table. -/
theorem c1_set_channel_round_trip_witness :
    (DeviceController.set_channel ⟨[(32, MuxDevice.new 32)]⟩ .SUCCESS 32 5).1 = true
    ∧ ∃ d : MuxDevice,
        dictGet (DeviceController.get_device_states
            (DeviceController.set_channel ⟨[(32, MuxDevice.new 32)]⟩ .SUCCESS 32 5).2) 32 = some d
        ∧ d.active_channel = 5 ∧ d.last_status = "SUCCESS" :=
  ⟨by decide, c1_set_channel_round_trip ⟨[(32, MuxDevice.new 32)]⟩ .SUCCESS 32 5 (by decide)⟩

/-- C7 (claim): a non-SUCCESS status from the SET (resp. RST) command makes
`set_channel` (resp. `reset_mux`) return `False`, leaves `active_channel`
unchanged, and records the status label in `last_status`. -/
theorem c7_failed_command_frame (st : ControllerState) (commStatus : ArduinoError)
    (a c : Int) (dev : MuxDevice)
    (hknown : dictGet st.devices a = some dev)
    (hfail : commStatus ≠ ArduinoError.SUCCESS) :
    (DeviceController.set_channel st commStatus a c).1 = false
    ∧ dictGet (DeviceController.set_channel st commStatus a c).2.devices a
        = some { dev with last_status := commStatus.enumName }
    ∧ (DeviceController.reset_mux st commStatus a).1 = false
    ∧ dictGet (DeviceController.reset_mux st commStatus a).2.devices a
        = some { dev with last_status := commStatus.enumName } := by
  unfold DeviceController.set_channel DeviceController.reset_mux
  refine ⟨?_, ?_, ?_, ?_⟩ <;>
    simp [hknown, hfail, dictGet_updateDevice_self]

/-- C7 witness: an ADDR_ERROR reply on a known address. -/
theorem c7_failed_command_frame_witness :
    dictGet (⟨[(32, MuxDevice.new 32)]⟩ : ControllerState).devices 32 = some (MuxDevice.new 32)
    ∧ (DeviceController.set_channel ⟨[(32, MuxDevice.new 32)]⟩ .ADDR_ERROR 32 5).1 = false
    ∧ dictGet (DeviceController.set_channel ⟨[(32, MuxDevice.new 32)]⟩ .ADDR_ERROR 32 5).2.devices 32
        = some { MuxDevice.new 32 with last_status := "ADDR_ERROR" } :=
  ⟨by decide,
   (c7_failed_command_frame ⟨[(32, MuxDevice.new 32)]⟩ .ADDR_ERROR 32 5
      (MuxDevice.new 32) (by decide) (by decide)).1,
   (c7_failed_command_frame ⟨[(32, MuxDevice.new 32)]⟩ .ADDR_ERROR 32 5
      (MuxDevice.new 32) (by decide) (by decide)).2.1⟩

/-! ### Serial transport (`src/communicator/serial_communicator.py`) -/

/-- Python string helpers used by the transport's response parsing. -/
def pyIsDigit (s : String) : Bool :=
  s.data ≠ [] && s.data.all Char.isDigit

/-- Value of `int(s)` on an all-digit string (what `isdigit` guarantees). -/
def digitsToNat (s : String) : Nat :=
  s.data.foldl (fun n c => 10 * n + (c.toNat - 48)) 0

/-- Parse of one token by Python `int(tok)` (tokens produced by `str.split()`
carry no surrounding whitespace): an optional sign followed by at least one
decimal digit; anything else raises `ValueError`, reported as `none`. -/
def pyInt (s : String) : Option Int :=
  match s.data with
  | '-' :: rest =>
    if rest ≠ [] && rest.all Char.isDigit then
      some (-(rest.foldl (fun n c => 10 * n + (c.toNat - 48)) 0 : Nat))
    else none
  | '+' :: rest =>
    if rest ≠ [] && rest.all Char.isDigit then
      some ((rest.foldl (fun n c => 10 * n + (c.toNat - 48)) 0 : Nat) : Int)
    else none
  | cs =>
    if cs ≠ [] && cs.all Char.isDigit then
      some ((cs.foldl (fun n c => 10 * n + (c.toNat - 48)) 0 : Nat) : Int)
    else none

/-- Python `s.split()`: split on runs of whitespace, discarding empty pieces. -/
def pySplit (s : String) : List String :=
  (s.split Char.isWhitespace).filter (fun t => t ≠ "")

/-- State of a `SerialCommunicator`:
`ser_open` stands for `self.ser is not None and self.ser.is_open`,
`is_running` is the connectivity flag, `stop_event` the `threading.Event`,
`reader_alive` whether a reader thread is still inside its loop, `threads`
how many reader threads have been spawned and not stopped, and
`response_queue` the queue the reader fills. -/
structure SerialState where
  ser_open : Bool
  is_running : Bool
  stop_event : Bool
  reader_alive : Bool
  threads : Nat
  response_queue : List String
  deriving Repr, DecidableEq

/-- `SerialCommunicator.__init__`: no port object, not running, event clear,
no reader thread, empty queue. -/
def SerialState.init : SerialState :=
  { ser_open := false, is_running := false, stop_event := false,
    reader_alive := false, threads := 0, response_queue := [] }

/-- `SerialCommunicator.start()`.  `openOk` is whether `serial.Serial(...)`
succeeds; on `SerialException` the method returns `False` with the state
untouched.  On success it replaces `self.ser` with a freshly opened port,
clears the stop event, spawns one more reader thread and sets `is_running`.
Note there is no already-running guard in the source. -/
def SerialCommunicator.start (st : SerialState) (openOk : Bool) : Bool × SerialState :=
  if !openOk then (false, st)
  else
    (true, { st with ser_open := true, stop_event := false, is_running := true,
                     reader_alive := true, threads := st.threads + 1 })

/-- `SerialCommunicator.stop()`: returns at once if `is_running` is false;
otherwise sets the stop event, joins the reader (bounded wait, modelled as the
reader loop observing the event and exiting), closes the port and clears
`is_running`. -/
def SerialCommunicator.stop (st : SerialState) : SerialState :=
  if !st.is_running then st
  else
    { st with stop_event := true, reader_alive := false, threads := 0,
              ser_open := false, is_running := false }

/-- One observation made by the reader loop `_read_from_port`:
a (stripped) line was read, nothing was waiting, `serial.SerialException`
was raised, or some other exception was raised. -/
inductive ReaderEvent where
  | line (s : String)
  | idle
  | serialError
  | otherError
  deriving Repr, DecidableEq

/-- One iteration of `SerialCommunicator._read_from_port`.  If the stop event
is set the `while` condition fails and the thread exits.  A non-empty line is
enqueued.  On `serial.SerialException` the loop `break`s — the thread exits and
nothing else happens: `stop()` is not called, `is_running` is not written, the
port is not closed.  Any other exception is logged and the loop continues. -/
def SerialCommunicator.read_from_port_step (st : SerialState) (ev : ReaderEvent) : SerialState :=
  if st.stop_event then { st with reader_alive := false }
  else
    match ev with
    | .line s => if s ≠ "" then { st with response_queue := st.response_queue ++ [s] } else st
    | .idle => st
    | .serialError => { st with reader_alive := false }
    | .otherError => st

/-- `SerialCommunicator._send_command(command, timeout)`.  `arrival` is the
line (if any) the reader enqueues before the timeout elapses.  Returns the
response (or `none` on a closed port or timeout), the resulting state, and the
list of lines written to the serial link.  With the port closed nothing is
written and `none` is returned immediately; otherwise stale queued responses
are discarded before writing, and a received response is consumed from the
queue. -/
def SerialCommunicator.send_command (st : SerialState) (command : String)
    (arrival : Option String) : Option String × SerialState × List String :=
  if !st.ser_open then (none, st, [])
  else
    let st1 := { st with response_queue := [] }
    match arrival with
    | some response => (some response, st1, [command ++ "\n"])
    | none => (none, st1, [command ++ "\n"])

/-- `SerialCommunicator.set_channel(address, channel)`: sends
`SET <addr> <ch>` and maps a non-empty all-digit reply through
`ArduinoError.from_int`; anything else (including no reply) is `UNKNOWN`. -/
def SerialCommunicator.set_channel (st : SerialState) (address channel : Int)
    (arrival : Option String) : ArduinoError × SerialState × List String :=
  let r := SerialCommunicator.send_command st
    ("SET " ++ toString address ++ " " ++ toString channel) arrival
  match r.1 with
  | some response =>
    if response ≠ "" && pyIsDigit response then
      (ArduinoError.from_int (digitsToNat response), r.2.1, r.2.2)
    else (.UNKNOWN, r.2.1, r.2.2)
  | none => (.UNKNOWN, r.2.1, r.2.2)

/-- `SerialCommunicator.reset_mux(address)`: sends `RST <addr>`, same reply
handling as `set_channel`. -/
def SerialCommunicator.reset_mux (st : SerialState) (address : Int)
    (arrival : Option String) : ArduinoError × SerialState × List String :=
  let r := SerialCommunicator.send_command st ("RST " ++ toString address) arrival
  match r.1 with
  | some response =>
    if response ≠ "" && pyIsDigit response then
      (ArduinoError.from_int (digitsToNat response), r.2.1, r.2.2)
    else (.UNKNOWN, r.2.1, r.2.2)
  | none => (.UNKNOWN, r.2.1, r.2.2)

/-- `SerialCommunicator.scan_i2c_bus()`: sends `SCN` (extended timeout);
`none` reply gives `none`; a whitespace-only reply gives `[]`; otherwise each
whitespace-separated token goes through `int(...)`, and any `ValueError`
makes the whole scan report `none` rather than a partial list. -/
def SerialCommunicator.scan_i2c_bus (st : SerialState) (arrival : Option String) :
    Option (List Int) × SerialState × List String :=
  let r := SerialCommunicator.send_command st "SCN" arrival
  match r.1 with
  | none => (none, r.2.1, r.2.2)
  | some response =>
    if response.trim = "" then (some [], r.2.1, r.2.2)
    else
      match (pySplit response).mapM pyInt with
      | some addresses => (some addresses, r.2.1, r.2.2)
      | none => (none, r.2.1, r.2.2)

/-- `SerialCommunicator.test_connection()`: sends `TST` and returns the raw
response. -/
def SerialCommunicator.test_connection (st : SerialState) (arrival : Option String) :
    Option String × SerialState × List String :=
  SerialCommunicator.send_command st "TST" arrival

/-- The attribute names bound on a `SerialCommunicator` object: the instance
attributes assigned in `__init__` plus the methods of the class body.
The class subclasses nothing, so Python attribute lookup is confined to this
set; a name outside it raises `AttributeError`. -/
def serialCommunicatorAttrs : List String :=
  ["ser", "port", "baudrate", "timeout", "is_running", "response_queue",
   "_reader_thread", "_stop_event", "start", "stop", "_read_from_port",
   "_send_command", "set_channel", "reset_mux", "scan_i2c_bus",
   "test_connection", "list_available_ports"]

/-- `DeviceController.is_connected` with a `SerialCommunicator` backend:
`self.comm` is a (truthy) object, so the property evaluates
`self.comm.is_connected` — and `SerialCommunicator` defines no attribute of
that name (its connectivity flag is `is_running`), so the attribute lookup
raises `AttributeError`. -/
def DeviceController.is_connected_serialBacked (_comm : SerialState) : PyResult Bool :=
  PyResult.exn "AttributeError"

/-- C2 (code bug): `SerialCommunicator` defines no `is_connected` attribute
(the class's connectivity flag is `is_running`), so the serial-backed
`DeviceController.is_connected` query raises `AttributeError` instead of
returning a boolean — contradicting the never-raising contract. -/
theorem c2_is_connected_raises (comm : SerialState) :
    serialCommunicatorAttrs.contains "is_connected" = false
    ∧ DeviceController.is_connected_serialBacked comm = PyResult.exn "AttributeError"
    ∧ ∀ b : Bool, DeviceController.is_connected_serialBacked comm ≠ PyResult.ok b := by
  refine ⟨by decide, rfl, ?_⟩
  intro b h
  exact PyResult.noConfusion h

/-- C3 (amended): a `serial.SerialException` observed by the reader loop makes
the loop exit (`break`), but performs no internal stop: `is_running` is
unchanged (so still `true` on a running transport), the port stays open and
`stop()` is not invoked; and a `_send_command` timeout (no line arriving)
leaves `is_running` unchanged for every command. -/
theorem c3_reader_error_no_stop (st : SerialState) (command : String) :
    (SerialCommunicator.read_from_port_step st .serialError).is_running = st.is_running
    ∧ (SerialCommunicator.read_from_port_step st .serialError).ser_open = st.ser_open
    ∧ (st.stop_event = false →
        (SerialCommunicator.read_from_port_step st .serialError).reader_alive = false)
    ∧ (SerialCommunicator.send_command st command none).2.1.is_running = st.is_running := by
  unfold SerialCommunicator.read_from_port_step SerialCommunicator.send_command
  by_cases hst : st.stop_event <;> by_cases hser : st.ser_open <;>
    simp [hst, hser]

/-- C3 witness: concrete running transport, reader hits a serial error. -/
theorem c3_reader_error_no_stop_witness :
    ({ ser_open := true, is_running := true, stop_event := false, reader_alive := true,
       threads := 1, response_queue := [] } : SerialState).stop_event = false
    ∧ (SerialCommunicator.read_from_port_step
        { ser_open := true, is_running := true, stop_event := false, reader_alive := true,
          threads := 1, response_queue := [] } .serialError).reader_alive = false :=
  ⟨rfl,
   (c3_reader_error_no_stop
      { ser_open := true, is_running := true, stop_event := false, reader_alive := true,
        threads := 1, response_queue := [] } "TST").2.2.1 rfl⟩

/-- C3 counterexample: on a running transport the reader's I/O error leaves the
connectivity flag `true`; the claim's "connectivity flag becomes false" is
false on the code. -/
theorem c3_counterexample :
    (SerialCommunicator.read_from_port_step
      { ser_open := true, is_running := true, stop_event := false, reader_alive := true,
        threads := 1, response_queue := [] } .serialError).is_running = true
    ∧ ¬ (SerialCommunicator.read_from_port_step
      { ser_open := true, is_running := true, stop_event := false, reader_alive := true,
        threads := 1, response_queue := [] } .serialError).is_running = false := by
  decide

/-- C9 (amended): `start` returns `False` with the state untouched on any open
failure and never raises; on success it opens the port, sets the connectivity
flag and spawns one more reader thread — it is not idempotent: called on an
already-started transport it opens the port again and adds a second reader
thread. -/
theorem c9_start_behaviour (st : SerialState) :
    SerialCommunicator.start st false = (false, st)
    ∧ (SerialCommunicator.start st true).1 = true
    ∧ (SerialCommunicator.start st true).2.ser_open = true
    ∧ (SerialCommunicator.start st true).2.is_running = true
    ∧ (SerialCommunicator.start st true).2.threads = st.threads + 1 := by
  unfold SerialCommunicator.start
  simp

/-- C9 counterexample: starting twice from the initial state leaves two reader
threads and a changed state, refuting "a second call leaves the started
transport unchanged, with a single reader thread". -/
theorem c9_counterexample :
    (SerialCommunicator.start (SerialCommunicator.start SerialState.init true).2 true).2.threads = 2
    ∧ (SerialCommunicator.start (SerialCommunicator.start SerialState.init true).2 true).2
        ≠ (SerialCommunicator.start SerialState.init true).2 := by
  decide

/-- C10 (claim): with the serial port not open, every command operation
returns immediately with nothing written to the link: `_send_command` yields
`None` with the state untouched, `set_channel` and `reset_mux` yield
`UNKNOWN`, `scan_i2c_bus` yields `None` and `test_connection` yields `None`. -/
theorem c10_closed_port (st : SerialState) (h : st.ser_open = false)
    (command : String) (arrival : Option String) (address channel : Int) :
    SerialCommunicator.send_command st command arrival = (none, st, [])
    ∧ SerialCommunicator.set_channel st address channel arrival = (.UNKNOWN, st, [])
    ∧ SerialCommunicator.reset_mux st address arrival = (.UNKNOWN, st, [])
    ∧ SerialCommunicator.scan_i2c_bus st arrival = (none, st, [])
    ∧ SerialCommunicator.test_connection st arrival = (none, st, []) := by
  unfold SerialCommunicator.set_channel SerialCommunicator.reset_mux
    SerialCommunicator.scan_i2c_bus SerialCommunicator.test_connection
    SerialCommunicator.send_command
  simp [h]

/-- C10 witness: the freshly constructed communicator (port never opened). -/
theorem c10_closed_port_witness :
    SerialState.init.ser_open = false
    ∧ SerialCommunicator.scan_i2c_bus SerialState.init (some "32 33") = (none, SerialState.init, [])
    ∧ SerialCommunicator.set_channel SerialState.init 32 5 (some "0")
        = (.UNKNOWN, SerialState.init, []) :=
  ⟨rfl,
   (c10_closed_port SerialState.init rfl "SCN" (some "32 33") 32 5).2.2.2.1,
   (c10_closed_port SerialState.init rfl "SET 32 5" (some "0") 32 5).2.1⟩

/-! ### `DeviceController.scan_for_devices` -/

/-- Outcome of the `self.comm.scan_i2c_bus()` call inside the scan's `try`
block: a list, `None`, or a raised exception. -/
inductive ScanOutcome where
  | ok (found : List Int)
  | failed
  | raised
  deriving Repr, DecidableEq

/-- The dict rewrite performed by a scan that obtained `found_addrs`:
devices whose address is not in the result are deleted
(`for addr in current_set - found_set: del ...`) and a default `MuxDevice`
is created for each found address not yet known
(`for addr in found_set - current_set: ...`); entry order within each of the
two groups is one fixed representative of Python's set iteration order. -/
def DeviceController.scanMerge (devices : List (Int × MuxDevice)) (found : List Int) :
    List (Int × MuxDevice) :=
  devices.filter (fun p => decide (p.1 ∈ found))
    ++ (found.dedup.filter (fun a => (dictGet devices a).isNone)).map
        (fun a => (a, MuxDevice.new a))

/-- `DeviceController.scan_for_devices()`.  `connected` is the value of
`self.is_connected` (modelled as an oracle; its serial-backed raising
behaviour is the subject of `c2_is_connected_raises`), `outcome` the result of
the transport scan.  Returns the Python return value, the controller state
after the call, and whether `self.comm.stop()` was invoked.  Note that a
`None` scan result is converted by `... or []` to an empty list inside the
`try` block, while `stop()` sits only in the `except` handler. -/
def DeviceController.scan_for_devices (st : ControllerState) (connected : Bool)
    (outcome : ScanOutcome) : List Int × ControllerState × Bool :=
  if !connected then ([], st, false)
  else
    match outcome with
    | .raised => ([], st, true)
    | .failed =>
      let devices := DeviceController.scanMerge st.devices []
      (devices.map Prod.fst, ⟨devices⟩, false)
    | .ok found =>
      let devices := DeviceController.scanMerge st.devices found
      (devices.map Prod.fst, ⟨devices⟩, false)

theorem dictGet_append (l1 l2 : List (Int × MuxDevice)) (a : Int) :
    dictGet (l1 ++ l2) a
      = if (dictGet l1 a).isSome then dictGet l1 a else dictGet l2 a := by
  induction l1 with
  | nil => simp [dictGet]
  | cons p rest ih =>
    obtain ⟨k, v⟩ := p
    by_cases h : k = a <;> simp [dictGet, h, ih]

theorem dictGet_map_new (l : List Int) (a : Int) :
    dictGet (l.map fun x => (x, MuxDevice.new x)) a
      = if a ∈ l then some (MuxDevice.new a) else none := by
  induction l with
  | nil => simp [dictGet]
  | cons x rest ih =>
    by_cases h : x = a
    · subst h
      simp [dictGet, ih]
    · simp [dictGet, h, ih, Ne.symm h]

theorem dictGet_filter_mem (devices : List (Int × MuxDevice)) (found : List Int)
    (a : Int) (ha : a ∈ found) :
    dictGet (devices.filter fun p => decide (p.1 ∈ found)) a = dictGet devices a := by
  induction devices with
  | nil => rfl
  | cons p rest ih =>
    obtain ⟨k, v⟩ := p
    by_cases h : k = a
    · subst h
      simp [dictGet, List.filter_cons, ha, ih]
    · by_cases hk : k ∈ found <;> simp [dictGet, List.filter_cons, h, hk, ih]

theorem dictGet_filter_not_mem (devices : List (Int × MuxDevice)) (found : List Int)
    (a : Int) (ha : a ∉ found) :
    dictGet (devices.filter fun p => decide (p.1 ∈ found)) a = none := by
  induction devices with
  | nil => rfl
  | cons p rest ih =>
    obtain ⟨k, v⟩ := p
    by_cases hk : k ∈ found
    · have h : k ≠ a := fun he => ha (he ▸ hk)
      simp [dictGet, List.filter_cons, hk, h, ih]
    · simp [dictGet, List.filter_cons, hk, ih]

theorem dictGet_scanMerge (devices : List (Int × MuxDevice)) (found : List Int) (a : Int) :
    dictGet (DeviceController.scanMerge devices found) a
      = if a ∈ found then some ((dictGet devices a).getD (MuxDevice.new a)) else none := by
  unfold DeviceController.scanMerge
  rw [dictGet_append]
  by_cases ha : a ∈ found
  · rw [dictGet_filter_mem devices found a ha]
    cases hd : dictGet devices a with
    | some dev => simp [ha, hd]
    | none =>
      have : dictGet ((found.dedup.filter fun x => (dictGet devices x).isNone).map
          fun x => (x, MuxDevice.new x)) a = some (MuxDevice.new a) := by
        rw [dictGet_map_new]
        simp [List.mem_filter, ha, hd]
      simp [hd, this, ha]
  · rw [dictGet_filter_not_mem devices found a ha]
    have : dictGet ((found.dedup.filter fun x => (dictGet devices x).isNone).map
        fun x => (x, MuxDevice.new x)) a = none := by
      rw [dictGet_map_new]
      simp [List.mem_filter]
      intro hmem
      exact absurd hmem ha
    simp [this, ha]

theorem mem_keys_iff_isSome (l : List (Int × MuxDevice)) (a : Int) :
    a ∈ l.map Prod.fst ↔ (dictGet l a).isSome := by
  induction l with
  | nil => simp [dictGet]
  | cons p rest ih =>
    obtain ⟨k, v⟩ := p
    by_cases h : k = a
    · subst h
      simp [dictGet]
    · simp [dictGet, h, ih, Ne.symm h]

/-- C4 (claim): on a successful scan yielding `found`, the table keeps exactly
the known devices whose address is in `found` (with their state untouched),
gains a default device (`active_channel 0`, `last_status "IDLE"`) for each
address of `found` not previously known, and the returned list is the full key
list of the resulting table, equal to `found` as a set. -/
theorem c4_scan_merge (st : ControllerState) (found : List Int) :
    (∀ a : Int,
      dictGet (DeviceController.scan_for_devices st true (.ok found)).2.1.devices a
        = if a ∈ found then some ((dictGet st.devices a).getD (MuxDevice.new a)) else none)
    ∧ (DeviceController.scan_for_devices st true (.ok found)).1
        = (DeviceController.scan_for_devices st true (.ok found)).2.1.devices.map Prod.fst
    ∧ (∀ a : Int, a ∈ (DeviceController.scan_for_devices st true (.ok found)).1 ↔ a ∈ found)
    ∧ (∀ a : Int, MuxDevice.new a = ⟨a, 0, "IDLE"⟩) := by
  refine ⟨?_, rfl, ?_, fun a => rfl⟩
  · intro a
    simpa [DeviceController.scan_for_devices] using dictGet_scanMerge st.devices found a
  · intro a
    rw [show (DeviceController.scan_for_devices st true (.ok found)).1
        = (DeviceController.scanMerge st.devices found).map Prod.fst from rfl,
      mem_keys_iff_isSome, dictGet_scanMerge]
    by_cases ha : a ∈ found <;> simp [ha]

/-- C6 (amended): a transport scan returning `None` is treated as an empty
found set — every known device is removed and the empty list is returned —
but the transport is *not* stopped; `stop()` is invoked only when the scan
raises an exception. -/
theorem c6_scan_failure (st : ControllerState) :
    DeviceController.scan_for_devices st true .failed = ([], ⟨[]⟩, false)
    ∧ DeviceController.scan_for_devices st true .raised = ([], st, true) := by
  constructor
  · have hnil : DeviceController.scanMerge st.devices [] = [] := by
      unfold DeviceController.scanMerge
      simp
    simp [DeviceController.scan_for_devices, hnil]
  · rfl

/-- C6 counterexample: with one known device and a `None` scan result, the
device table is emptied and `[]` returned, yet `stop()` is not called — the
claim's "stops the transport" is false on the code. -/
theorem c6_counterexample :
    DeviceController.scan_for_devices ⟨[(32, MuxDevice.new 32)]⟩ true .failed
      = ([], ⟨[]⟩, false)
    ∧ ¬ (DeviceController.scan_for_devices ⟨[(32, MuxDevice.new 32)]⟩ true .failed).2.2 = true := by
  decide

/-! ### OPC UA reconciliation (`src/opc_ua/serverLogic.py`) -/

/-- The parts of `OpcUaServer` state the reconciliation claims are about:
the keys of `self.mux_nodes` (in creation order) and the controller.  The
OPC UA variable objects hung beneath each node only display controller state
and are not modelled. -/
structure ServerState where
  mux_nodes : List Int
  ctrl : ControllerState
  deriving Repr, DecidableEq

/-- `OpcUaServer.__init__`: `self.mux_nodes = {}` and the controller starts
with an empty device table. -/
def OpcUaServer.initState : ServerState :=
  { mux_nodes := [], ctrl := ⟨[]⟩ }

/-- `OpcUaServer._create_mux_node(address)`: returns at once if the address is
already mirrored, otherwise records the new node (the variables added beneath
it and the count update are not modelled). -/
def OpcUaServer.create_mux_node (st : ServerState) (address : Int) : ServerState :=
  if address ∈ st.mux_nodes then st
  else { st with mux_nodes := st.mux_nodes ++ [address] }

/-- Loop body of `_rescan_handler`: for `addr` in the scan result, only an
address not yet in `self.mux_nodes` gets a node created, a defensive
`reset_mux` issued (with oracle status `resetStatus addr`) and its variables
pushed. -/
def OpcUaServer.rescanStep (resetStatus : Int → ArduinoError) (s : ServerState)
    (addr : Int) : ServerState :=
  if addr ∈ s.mux_nodes then s
  else
    { OpcUaServer.create_mux_node s addr with
      ctrl := (DeviceController.reset_mux (OpcUaServer.create_mux_node s addr).ctrl
        (resetStatus addr) addr).2 }

/-- Loop body of `_initial_scan_and_populate`: every found address gets
`_create_mux_node` (which itself skips known ones) and an unconditional
defensive `reset_mux`. -/
def OpcUaServer.populateStep (resetStatus : Int → ArduinoError) (s : ServerState)
    (addr : Int) : ServerState :=
  { OpcUaServer.create_mux_node s addr with
    ctrl := (DeviceController.reset_mux (OpcUaServer.create_mux_node s addr).ctrl
      (resetStatus addr) addr).2 }

/-- `OpcUaServer._rescan_handler`: runs `scan_for_devices`, returns early on an
empty result (`if not found_devices`), otherwise folds the loop body over the
returned address list.  Nothing is ever removed from `mux_nodes`. -/
def OpcUaServer.rescan_handler (st : ServerState) (connected : Bool)
    (outcome : ScanOutcome) (resetStatus : Int → ArduinoError) : ServerState :=
  if (DeviceController.scan_for_devices st.ctrl connected outcome).1.isEmpty then
    { st with ctrl := (DeviceController.scan_for_devices st.ctrl connected outcome).2.1 }
  else
    (DeviceController.scan_for_devices st.ctrl connected outcome).1.foldl
      (OpcUaServer.rescanStep resetStatus)
      { st with ctrl := (DeviceController.scan_for_devices st.ctrl connected outcome).2.1 }

/-- `OpcUaServer._initial_scan_and_populate`: returns at once when the
controller reports not connected (only the gateway status text changes),
otherwise scans and folds the populate loop body over the result
(early return on `if not found_devices`). -/
def OpcUaServer.initial_scan_and_populate (st : ServerState) (connected : Bool)
    (outcome : ScanOutcome) (resetStatus : Int → ArduinoError) : ServerState :=
  if !connected then st
  else if (DeviceController.scan_for_devices st.ctrl connected outcome).1.isEmpty then
    { st with ctrl := (DeviceController.scan_for_devices st.ctrl connected outcome).2.1 }
  else
    (DeviceController.scan_for_devices st.ctrl connected outcome).1.foldl
      (OpcUaServer.populateStep resetStatus)
      { st with ctrl := (DeviceController.scan_for_devices st.ctrl connected outcome).2.1 }

/-- The addresses currently known to the registry. -/
def registryAddresses (c : ControllerState) : List Int :=
  c.devices.map Prod.fst

/-- The mirror-superset invariant: every address in the registry's table has a
mirror node. -/
def OpcUaServer.MirrorsRegistry (s : ServerState) : Prop :=
  ∀ a : Int, a ∈ registryAddresses s.ctrl → a ∈ s.mux_nodes

theorem updateDevice_keys (l : List (Int × MuxDevice)) (addr : Int)
    (f : MuxDevice → MuxDevice) :
    (DeviceController.updateDevice l addr f).map Prod.fst = l.map Prod.fst := by
  induction l with
  | nil => rfl
  | cons p rest ih =>
    obtain ⟨k, v⟩ := p
    simp [DeviceController.updateDevice, ih]

theorem reset_mux_keys (c : ControllerState) (s : ArduinoError) (addr : Int) :
    registryAddresses (DeviceController.reset_mux c s addr).2 = registryAddresses c := by
  unfold DeviceController.reset_mux registryAddresses
  cases h : dictGet c.devices addr <;> by_cases hs : s = ArduinoError.SUCCESS <;>
    simp [h, hs, updateDevice_keys]

theorem rescanStep_mono (resetStatus : Int → ArduinoError) (s : ServerState)
    (addr x : Int) (hx : x ∈ s.mux_nodes) :
    x ∈ (OpcUaServer.rescanStep resetStatus s addr).mux_nodes := by
  unfold OpcUaServer.rescanStep OpcUaServer.create_mux_node
  by_cases h : addr ∈ s.mux_nodes <;> simp [h, hx]

theorem rescanStep_self (resetStatus : Int → ArduinoError) (s : ServerState) (addr : Int) :
    addr ∈ (OpcUaServer.rescanStep resetStatus s addr).mux_nodes := by
  unfold OpcUaServer.rescanStep OpcUaServer.create_mux_node
  by_cases h : addr ∈ s.mux_nodes <;> simp [h]

theorem rescanStep_keys (resetStatus : Int → ArduinoError) (s : ServerState) (addr : Int) :
    registryAddresses (OpcUaServer.rescanStep resetStatus s addr).ctrl
      = registryAddresses s.ctrl := by
  unfold OpcUaServer.rescanStep OpcUaServer.create_mux_node
  by_cases h : addr ∈ s.mux_nodes <;> simp [h, reset_mux_keys]

theorem populateStep_mono (resetStatus : Int → ArduinoError) (s : ServerState)
    (addr x : Int) (hx : x ∈ s.mux_nodes) :
    x ∈ (OpcUaServer.populateStep resetStatus s addr).mux_nodes := by
  unfold OpcUaServer.populateStep OpcUaServer.create_mux_node
  by_cases h : addr ∈ s.mux_nodes <;> simp [h, hx]

theorem populateStep_self (resetStatus : Int → ArduinoError) (s : ServerState) (addr : Int) :
    addr ∈ (OpcUaServer.populateStep resetStatus s addr).mux_nodes := by
  unfold OpcUaServer.populateStep OpcUaServer.create_mux_node
  by_cases h : addr ∈ s.mux_nodes <;> simp [h]

theorem populateStep_keys (resetStatus : Int → ArduinoError) (s : ServerState) (addr : Int) :
    registryAddresses (OpcUaServer.populateStep resetStatus s addr).ctrl
      = registryAddresses s.ctrl := by
  unfold OpcUaServer.populateStep OpcUaServer.create_mux_node
  by_cases h : addr ∈ s.mux_nodes <;> simp [h, reset_mux_keys]

theorem foldl_mirror (step : ServerState → Int → ServerState)
    (hmono : ∀ s a x, x ∈ s.mux_nodes → x ∈ (step s a).mux_nodes)
    (hself : ∀ s a, a ∈ (step s a).mux_nodes)
    (hkeys : ∀ s a, registryAddresses (step s a).ctrl = registryAddresses s.ctrl)
    (l : List Int) :
    ∀ s : ServerState,
      (∀ x ∈ s.mux_nodes, x ∈ (l.foldl step s).mux_nodes)
      ∧ (∀ a ∈ l, a ∈ (l.foldl step s).mux_nodes)
      ∧ registryAddresses (l.foldl step s).ctrl = registryAddresses s.ctrl := by
  induction l with
  | nil =>
    intro s
    exact ⟨fun x hx => hx, fun a ha => absurd ha (List.not_mem_nil a), rfl⟩
  | cons a rest ih =>
    intro s
    refine ⟨?_, ?_, ?_⟩
    · intro x hx
      exact (ih (step s a)).1 x (hmono s a x hx)
    · intro b hb
      rcases List.mem_cons.mp hb with hba | hbr
      · subst hba
        exact (ih (step s b)).1 b (hself s b)
      · exact (ih (step s a)).2.1 b hbr
    · rw [List.foldl_cons, (ih (step s a)).2.2, hkeys s a]

theorem scan_for_devices_keys (c : ControllerState) (connected : Bool)
    (outcome : ScanOutcome) :
    (DeviceController.scan_for_devices c connected outcome).1
        = registryAddresses (DeviceController.scan_for_devices c connected outcome).2.1
    ∨ ((DeviceController.scan_for_devices c connected outcome).1 = []
        ∧ (DeviceController.scan_for_devices c connected outcome).2.1 = c) := by
  unfold DeviceController.scan_for_devices
  by_cases h : connected <;> cases outcome <;> simp [h, registryAddresses]

theorem rescan_handler_mirror (st : ServerState) (connected : Bool) (outcome : ScanOutcome)
    (resetStatus : Int → ArduinoError) (hinv : OpcUaServer.MirrorsRegistry st) :
    (∀ x ∈ st.mux_nodes,
      x ∈ (OpcUaServer.rescan_handler st connected outcome resetStatus).mux_nodes)
    ∧ OpcUaServer.MirrorsRegistry (OpcUaServer.rescan_handler st connected outcome resetStatus) := by
  unfold OpcUaServer.rescan_handler
  by_cases he : (DeviceController.scan_for_devices st.ctrl connected outcome).1.isEmpty
  · rw [if_pos he]
    refine ⟨fun x hx => hx, ?_⟩
    intro a ha
    change a ∈ registryAddresses
      (DeviceController.scan_for_devices st.ctrl connected outcome).2.1 at ha
    rcases scan_for_devices_keys st.ctrl connected outcome with hk | ⟨h1, h2⟩
    · rw [List.isEmpty_iff] at he
      rw [← hk, he] at ha
      exact absurd ha (List.not_mem_nil a)
    · rw [h2] at ha
      exact hinv a ha
  · rw [if_neg he]
    have hf := foldl_mirror (OpcUaServer.rescanStep resetStatus)
      (rescanStep_mono resetStatus) (rescanStep_self resetStatus) (rescanStep_keys resetStatus)
      (DeviceController.scan_for_devices st.ctrl connected outcome).1
      { st with ctrl := (DeviceController.scan_for_devices st.ctrl connected outcome).2.1 }
    refine ⟨fun x hx => hf.1 x hx, ?_⟩
    intro a ha
    rw [hf.2.2] at ha
    change a ∈ registryAddresses
      (DeviceController.scan_for_devices st.ctrl connected outcome).2.1 at ha
    rcases scan_for_devices_keys st.ctrl connected outcome with hk | ⟨h1, h2⟩
    · rw [← hk] at ha
      exact hf.2.1 a ha
    · rw [List.isEmpty_iff] at he
      exact absurd h1 he

theorem initial_scan_populate_mirror (st : ServerState) (connected : Bool)
    (outcome : ScanOutcome) (resetStatus : Int → ArduinoError)
    (hinv : OpcUaServer.MirrorsRegistry st) :
    (∀ x ∈ st.mux_nodes,
      x ∈ (OpcUaServer.initial_scan_and_populate st connected outcome resetStatus).mux_nodes)
    ∧ OpcUaServer.MirrorsRegistry
        (OpcUaServer.initial_scan_and_populate st connected outcome resetStatus) := by
  unfold OpcUaServer.initial_scan_and_populate
  by_cases hc : connected
  · rw [if_neg (by simp [hc])]
    by_cases he : (DeviceController.scan_for_devices st.ctrl connected outcome).1.isEmpty
    · rw [if_pos he]
      refine ⟨fun x hx => hx, ?_⟩
      intro a ha
      change a ∈ registryAddresses
        (DeviceController.scan_for_devices st.ctrl connected outcome).2.1 at ha
      rcases scan_for_devices_keys st.ctrl connected outcome with hk | ⟨h1, h2⟩
      · rw [List.isEmpty_iff] at he
        rw [← hk, he] at ha
        exact absurd ha (List.not_mem_nil a)
      · rw [h2] at ha
        exact hinv a ha
    · rw [if_neg he]
      have hf := foldl_mirror (OpcUaServer.populateStep resetStatus)
        (populateStep_mono resetStatus) (populateStep_self resetStatus)
        (populateStep_keys resetStatus)
        (DeviceController.scan_for_devices st.ctrl connected outcome).1
        { st with ctrl := (DeviceController.scan_for_devices st.ctrl connected outcome).2.1 }
      refine ⟨fun x hx => hf.1 x hx, ?_⟩
      intro a ha
      rw [hf.2.2] at ha
      change a ∈ registryAddresses
        (DeviceController.scan_for_devices st.ctrl connected outcome).2.1 at ha
      rcases scan_for_devices_keys st.ctrl connected outcome with hk | ⟨h1, h2⟩
      · rw [← hk] at ha
        exact hf.2.1 a ha
      · rw [List.isEmpty_iff] at he
        exact absurd h1 he
  · simp only [Bool.not_eq_true] at hc
    rw [hc]
    exact ⟨fun x hx => hx, hinv⟩

/-- C5 (claim): each reconciliation pass (initial population and rescan) only
ever adds mirror nodes, and preserves the invariant that every address known
to the registry is mirrored; the invariant holds in the initial server state. -/
theorem c5_mirror_superset (st : ServerState) (connected : Bool) (outcome : ScanOutcome)
    (resetStatus : Int → ArduinoError) (hinv : OpcUaServer.MirrorsRegistry st) :
    (∀ x ∈ st.mux_nodes,
      x ∈ (OpcUaServer.rescan_handler st connected outcome resetStatus).mux_nodes)
    ∧ OpcUaServer.MirrorsRegistry (OpcUaServer.rescan_handler st connected outcome resetStatus)
    ∧ (∀ x ∈ st.mux_nodes,
      x ∈ (OpcUaServer.initial_scan_and_populate st connected outcome resetStatus).mux_nodes)
    ∧ OpcUaServer.MirrorsRegistry
        (OpcUaServer.initial_scan_and_populate st connected outcome resetStatus)
    ∧ OpcUaServer.MirrorsRegistry OpcUaServer.initState :=
  ⟨(rescan_handler_mirror st connected outcome resetStatus hinv).1,
   (rescan_handler_mirror st connected outcome resetStatus hinv).2,
   (initial_scan_populate_mirror st connected outcome resetStatus hinv).1,
   (initial_scan_populate_mirror st connected outcome resetStatus hinv).2,
   fun a ha => absurd ha (List.not_mem_nil a)⟩

/-- C5 witness: a rescan finding two new devices from the fresh server state. -/
theorem c5_mirror_superset_witness :
    OpcUaServer.MirrorsRegistry OpcUaServer.initState
    ∧ OpcUaServer.MirrorsRegistry
        (OpcUaServer.rescan_handler OpcUaServer.initState true (.ok [32, 33])
          (fun _ => ArduinoError.SUCCESS)) :=
  ⟨fun a ha => absurd ha (List.not_mem_nil a),
   (c5_mirror_superset OpcUaServer.initState true (.ok [32, 33])
      (fun _ => ArduinoError.SUCCESS)
      (fun a ha => absurd ha (List.not_mem_nil a))).2.1⟩

/-! ### `OpcUaServer._handle_set_channel_event` -/

/-- Observable outcome of one `SetChannel` data-change event on a mirror node:
the controller state afterwards, the value left in the `SetChannel` trigger
attribute, and how many `SET` commands were issued to the controller/transport
(`self.controller.set_channel` calls). -/
structure SetChannelEventResult where
  ctrl : ControllerState
  trigger : Int
  hw_set_commands : Nat
  deriving Repr, DecidableEq

/-- `OpcUaServer._handle_set_channel_event` for the node of `address`, fired by
a client write of `val` into the trigger (so the trigger holds `val` on entry).
`commStatus` is the transport's reply to a `SET` command should one be issued.
A sentinel write (`val == 0`) returns before the `try` block: nothing is
written back, but the trigger already holds the written 0.  An unknown address
returns from inside the `try`, and a redundant value (equal to the device's
`active_channel`) writes the trigger to 0 and returns — in both cases the
`finally` block (re)writes the trigger to 0.  Otherwise one
`controller.set_channel` call is made and the `finally` write resets the
trigger.  The pushes of `ActiveChannel`/`LastOperationStatus` display
variables (`_update_mux_variables`) copy controller state and are not
modelled. -/
def OpcUaServer.handle_set_channel_event (ctrl : ControllerState) (address val : Int)
    (commStatus : ArduinoError) : SetChannelEventResult :=
  if val = 0 then ⟨ctrl, val, 0⟩
  else
    match dictGet ctrl.devices address with
    | none => ⟨ctrl, 0, 0⟩
    | some current_state =>
      if val = current_state.active_channel then ⟨ctrl, 0, 0⟩
      else ⟨(DeviceController.set_channel ctrl commStatus address val).2, 0, 1⟩

theorem dictGet_set_channel_success (c : ControllerState) (a v : Int) (dev : MuxDevice)
    (h : dictGet c.devices a = some dev) :
    dictGet (DeviceController.set_channel c .SUCCESS a v).2.devices a
      = some { dev with last_status := "SUCCESS", active_channel := v } := by
  unfold DeviceController.set_channel
  simp [h, dictGet_updateDevice_self, ArduinoError.enumName]

/-- C8 (claim): two consecutive `SetChannel` trigger writes of the same
non-zero value `val` (on a known device whose channel differs from `val`, the
first acknowledged SUCCESS) issue exactly one hardware `SET` command — the
second is ignored as redundant because it equals the device's now-current
`active_channel` — and in every ignored case (sentinel 0 write, or redundant
write) the trigger attribute ends at the sentinel 0. -/
theorem c8_trigger_idempotence (ctrl : ControllerState) (address val : Int)
    (dev : MuxDevice) (second : ArduinoError)
    (hknown : dictGet ctrl.devices address = some dev)
    (hnz : val ≠ 0)
    (hdiff : val ≠ dev.active_channel) :
    (OpcUaServer.handle_set_channel_event ctrl address val .SUCCESS).hw_set_commands
      + (OpcUaServer.handle_set_channel_event
          (OpcUaServer.handle_set_channel_event ctrl address val .SUCCESS).ctrl
          address val second).hw_set_commands = 1
    ∧ (OpcUaServer.handle_set_channel_event ctrl address val .SUCCESS).trigger = 0
    ∧ (OpcUaServer.handle_set_channel_event
        (OpcUaServer.handle_set_channel_event ctrl address val .SUCCESS).ctrl
        address val second).hw_set_commands = 0
    ∧ (OpcUaServer.handle_set_channel_event
        (OpcUaServer.handle_set_channel_event ctrl address val .SUCCESS).ctrl
        address val second).trigger = 0
    ∧ (∀ (c2 : ControllerState) (s2 : ArduinoError),
        (OpcUaServer.handle_set_channel_event c2 address 0 s2).trigger = 0) := by
  have h1 : OpcUaServer.handle_set_channel_event ctrl address val .SUCCESS
      = ⟨(DeviceController.set_channel ctrl .SUCCESS address val).2, 0, 1⟩ := by
    unfold OpcUaServer.handle_set_channel_event
    simp [hnz, hknown, hdiff]
  have h2 : dictGet (DeviceController.set_channel ctrl .SUCCESS address val).2.devices address
      = some { dev with last_status := "SUCCESS", active_channel := val } :=
    dictGet_set_channel_success ctrl address val dev hknown
  have h3 : OpcUaServer.handle_set_channel_event
      (DeviceController.set_channel ctrl .SUCCESS address val).2 address val second
      = ⟨(DeviceController.set_channel ctrl .SUCCESS address val).2, 0, 0⟩ := by
    unfold OpcUaServer.handle_set_channel_event
    simp [hnz, h2]
  refine ⟨?_, ?_, ?_, ?_, ?_⟩
  · rw [h1]
    simp [h3]
  · rw [h1]
  · simp [h1, h3]
  · simp [h1, h3]
  · intro c2 s2
    simp [OpcUaServer.handle_set_channel_event]

/-- C8 witness: device 32 at channel 0, two writes of 5. -/
theorem c8_trigger_idempotence_witness :
    dictGet (⟨[(32, MuxDevice.new 32)]⟩ : ControllerState).devices 32 = some (MuxDevice.new 32)
    ∧ (OpcUaServer.handle_set_channel_event ⟨[(32, MuxDevice.new 32)]⟩ 32 5 .SUCCESS).hw_set_commands
        + (OpcUaServer.handle_set_channel_event
            (OpcUaServer.handle_set_channel_event ⟨[(32, MuxDevice.new 32)]⟩ 32 5 .SUCCESS).ctrl
            32 5 .UNKNOWN).hw_set_commands = 1
    ∧ (OpcUaServer.handle_set_channel_event
        (OpcUaServer.handle_set_channel_event ⟨[(32, MuxDevice.new 32)]⟩ 32 5 .SUCCESS).ctrl
        32 5 .UNKNOWN).trigger = 0 :=
  ⟨by decide,
   (c8_trigger_idempotence ⟨[(32, MuxDevice.new 32)]⟩ 32 5 (MuxDevice.new 32) .UNKNOWN
      (by decide) (by decide) (by decide)).1,
   (c8_trigger_idempotence ⟨[(32, MuxDevice.new 32)]⟩ 32 5 (MuxDevice.new 32) .UNKNOWN
      (by decide) (by decide) (by decide)).2.2.2.1⟩
